import Mathlib

/-
Verification of the pyweb-hw-13 contacts/auth backend.

The auth route handlers are embedded from src/src/routes/auth.py and the
contact repository from src/src/repository/contacts.py.  The collaborators
those handlers call (src/src/services/auth.py and src/src/repository/users.py)
are not part of the provided sources, so they are modelled from the
specification; each such definition carries a doc comment saying so.

Conventions of the embedding:
- A handler returns `Db × Except PyErr α`: the (possibly mutated) account
  store together with either the response payload or the raised exception.
  Mutations performed before an exception is raised persist, exactly as the
  awaited repository calls commit before the Python `raise` executes.
- `PyErr.http code detail` embeds `fastapi.HTTPException(code, detail)`.
- `PyErr.attrError` embeds the Python `AttributeError` raised when an
  attribute of `None` is dereferenced (an unhandled error, surfaced by the
  framework as a generic 500, never as a crafted 401/404 response).
- `PyErr.invalidToken` embeds the spec's `InvalidTokenError` raised by the
  token codec when signature/expiry/purpose validation fails.
- Background email dispatch is fire-and-forget; handlers that enqueue a
  message expose it in their payload (the dispatched token, or a Bool flag)
  so properties about "a notification carrying the token" can be stated.
- Wall-clock instants are `Nat` seconds; each handler takes the instant
  `now` at which it runs.
-/

namespace PyWebHw13

/-- Purpose tag carried inside a token.  The source routes use exactly one
codec for confirmation and reset mail tokens (`create_email_token` /
`get_email_from_token`), so the embedding has a single `email` purpose next
to `access` and `refresh`. -/
inductive Purpose where
  | access
  | refresh
  | email
  deriving DecidableEq, Repr

/-- A signed, self-contained token: subject claim, purpose tag, issued-at
and absolute expiry instants.  Two tokens are equal exactly when all four
coincide, which models equality of the encoded JWT strings. -/
structure Token where
  sub : String
  purpose : Purpose
  iat : Nat
  exp : Nat
  deriving DecidableEq, Repr

/-- A user account row: unique email, password hash, display name,
confirmation flag and the single currently stored refresh token
(`none` embeds SQL NULL / Python `None`). -/
structure User where
  email : String
  password : String
  username : String
  confirmed : Bool
  refresh_token : Option Token
  deriving DecidableEq, Repr

/-- The account store: the list of user rows. -/
structure Db where
  users : List User
  deriving DecidableEq, Repr

/-- An error surfaced by a handler. -/
inductive PyErr where
  | http (code : Nat) (detail : String)
  | invalidToken
  | attrError
  deriving DecidableEq, Repr

/-- The login/refresh response body. -/
structure TokenSchema where
  access_token : Token
  refresh_token : Token
  token_type : String
  deriving DecidableEq, Repr

namespace AuthService

/-- Access-token lifetime (the spec recommends 15 minutes). -/
def access_ttl : Nat := 15 * 60

/-- Refresh-token lifetime (the spec recommends 7 days). -/
def refresh_ttl : Nat := 7 * 24 * 60 * 60

/-- Mail-token lifetime (the spec recommends 24 hours). -/
def email_ttl : Nat := 24 * 60 * 60

/-- Modelled from the spec: `auth_service.create_access_token` of the missing
src/src/services/auth.py; `issue(subject, access, ttl)` of the Token Codec. -/
def create_access_token (sub : String) (now : Nat) : Token :=
  ⟨sub, Purpose.access, now, now + access_ttl⟩

/-- Modelled from the spec: `auth_service.create_refresh_token` of the missing
src/src/services/auth.py; `issue(subject, refresh, ttl)` of the Token Codec. -/
def create_refresh_token (sub : String) (now : Nat) : Token :=
  ⟨sub, Purpose.refresh, now, now + refresh_ttl⟩

/-- Modelled from the spec: `auth_service.create_email_token` of the missing
src/src/services/auth.py, the codec the routes use both for confirmation-mail
tokens and for password-reset tokens. -/
def create_email_token (sub : String) (now : Nat) : Token :=
  ⟨sub, Purpose.email, now, now + email_ttl⟩

/-- Modelled from the spec: `decode(token, expected_purpose)` of the Token
Codec fails with `InvalidTokenError` on a purpose mismatch or an expired
token, and otherwise yields the subject claim. -/
def decode_token (t : Token) (expected : Purpose) (now : Nat) : Except PyErr String :=
  if t.purpose ≠ expected then Except.error PyErr.invalidToken
  else if t.exp < now then Except.error PyErr.invalidToken
  else Except.ok t.sub

/-- Modelled from the spec: `auth_service.decode_refresh_token` of the missing
src/src/services/auth.py decodes expecting the refresh purpose. -/
def decode_refresh_token (t : Token) (now : Nat) : Except PyErr String :=
  decode_token t Purpose.refresh now

/-- Modelled from the spec: `auth_service.get_email_from_token` of the missing
src/src/services/auth.py decodes a mail token and returns its subject email. -/
def get_email_from_token (t : Token) (now : Nat) : Except PyErr String :=
  decode_token t Purpose.email now

/-- Modelled from the spec: `auth_service.get_password_hash`, a salted one-way
function.  The salt is passed explicitly; the hash embeds it so that the same
plaintext hashed under different salts gives different strings. -/
def get_password_hash (plain salt : String) : String :=
  salt ++ (":") ++ plain

/-- Suffix test on character lists (structural, so it evaluates by kernel
reduction). -/
def isCharSuffix (pat s : List Char) : Bool :=
  pat == s.drop (s.length - pat.length)

/-- Modelled from the spec: `auth_service.verify_password` is true iff the
plaintext reproduces the stored hash under the hash's own salt. -/
def verify_password (plain hashed : String) : Bool :=
  isCharSuffix ((':' :: plain.toList)) hashed.toList

end AuthService

namespace RepoUsers

/-- Modelled from the spec: `repositories_users.get_user_by_email` of the
missing src/src/repository/users.py, a lookup in the store keyed by email. -/
def get_user_by_email (email : String) (db : Db) : Option User :=
  db.users.find? (fun u => u.email == email)

/-- Modelled from the spec: `repositories_users.update_token` of the missing
src/src/repository/users.py persists `tok` as the given user's stored refresh
token (overwriting any prior value). -/
def update_token (user : User) (tok : Option Token) (db : Db) : Db :=
  ⟨db.users.map (fun v => if v.email == user.email then { v with refresh_token := tok } else v)⟩

/-- Modelled from the spec: `repositories_users.confirmed_email` of the missing
src/src/repository/users.py sets the account's confirmation flag. -/
def confirmed_email (email : String) (db : Db) : Db :=
  ⟨db.users.map (fun v => if v.email == email then { v with confirmed := true } else v)⟩

/-- Modelled from the spec: `auth_service.update_password` of the missing
src/src/services/auth.py hashes the new password and overwrites the account's
credential hash. -/
def update_password (email new_password salt : String) (db : Db) : Db :=
  ⟨db.users.map (fun v =>
    if v.email == email then { v with password := AuthService.get_password_hash new_password salt } else v)⟩

end RepoUsers

namespace Routes

/-- Embeds the `login` handler of src/src/routes/auth.py lines 39-74: looks up
the account, rejects with 401 on unknown email, unconfirmed account, or bad
password (in that order), otherwise issues a fresh access/refresh pair,
persists the refresh token, and returns both with the bearer marker. -/
def login (username password : String) (now : Nat) (db : Db) : Db × Except PyErr TokenSchema :=
  match RepoUsers.get_user_by_email username db with
  | none => (db, Except.error (PyErr.http 401 ("Invalid email")))
  | some user =>
    if !user.confirmed then
      (db, Except.error (PyErr.http 401 ("Email not confirmed")))
    else if !(AuthService.verify_password password user.password) then
      (db, Except.error (PyErr.http 401 ("Invalid password")))
    else
      (RepoUsers.update_token user (some (AuthService.create_refresh_token user.email now)) db,
        Except.ok ⟨AuthService.create_access_token user.email now,
          AuthService.create_refresh_token user.email now, ("bearer")⟩)

/-- Embeds the `refresh_token` handler of src/src/routes/auth.py lines 77-98:
decodes the presented token with the refresh purpose, looks up the account by
the decoded subject (dereferencing it unconditionally, hence `attrError` when
absent), clears the stored token and raises 401 when the presented token is
not the stored one, otherwise rotates: stores a fresh refresh token and
returns the new pair. -/
def refresh_token (t : Token) (now : Nat) (db : Db) : Db × Except PyErr TokenSchema :=
  match AuthService.decode_refresh_token t now with
  | Except.error e => (db, Except.error e)
  | Except.ok email =>
    match RepoUsers.get_user_by_email email db with
    | none => (db, Except.error PyErr.attrError)
    | some user =>
      if user.refresh_token ≠ some t then
        (RepoUsers.update_token user none db,
          Except.error (PyErr.http 401 ("Invalid refresh token")))
      else
        (RepoUsers.update_token user (some (AuthService.create_refresh_token email now)) db,
          Except.ok ⟨AuthService.create_access_token email now,
            AuthService.create_refresh_token email now, ("bearer")⟩)

/-- Embeds the `confirmed_email` handler of src/src/routes/auth.py lines
101-112: decodes the mail token, 400 when no account matches the subject,
informational message without mutation when already confirmed, otherwise sets
the confirmation flag. -/
def confirmed_email (t : Token) (now : Nat) (db : Db) : Db × Except PyErr String :=
  match AuthService.get_email_from_token t now with
  | Except.error e => (db, Except.error e)
  | Except.ok email =>
    match RepoUsers.get_user_by_email email db with
    | none => (db, Except.error (PyErr.http 400 ("Verification error")))
    | some user =>
      if user.confirmed then (db, Except.ok ("Your email is already confirmed"))
      else (RepoUsers.confirmed_email email db, Except.ok ("Email confirmed"))

/-- Embeds the `request_email` handler of src/src/routes/auth.py lines
115-130.  The payload's Bool records whether a confirmation mail was
enqueued.  Line 124 reads `user.confirmed` before any None check, so an
absent account raises `AttributeError` (`attrError`), not a response. -/
def request_email (email : String) (db : Db) : Db × Except PyErr (String × Bool) :=
  match RepoUsers.get_user_by_email email db with
  | none => (db, Except.error PyErr.attrError)
  | some user =>
    if user.confirmed then (db, Except.ok (("Your email is already confirmed"), false))
    else (db, Except.ok (("Check your email for confirmation."), true))

/-- Embeds the `password_reset_request` handler of src/src/routes/auth.py
lines 133-154: 404 when no account matches, otherwise creates a mail token
via `create_email_token` and enqueues a message carrying it (the payload
exposes the dispatched token).  The store is not touched. -/
def password_reset_request (email : String) (now : Nat) (db : Db) : Db × Except PyErr (String × Token) :=
  match RepoUsers.get_user_by_email email db with
  | none => (db, Except.error (PyErr.http 404 ("User not found")))
  | some _user =>
    (db, Except.ok (("Password reset email sent"), AuthService.create_email_token email now))

/-- Embeds the `password_reset_confirm` handler of src/src/routes/auth.py
lines 157-178: decodes with `get_email_from_token` (the same codec the
confirmation flow uses) and overwrites the account's credential hash.  The
body is wrapped in a blanket `except Exception`, which also catches the
handler's own 404 `HTTPException` and the codec's decode failure, so every
failure surfaces as 400 "Invalid token or user". -/
def password_reset_confirm (t : Token) (new_password : String) (now : Nat) (salt : String)
    (db : Db) : Db × Except PyErr String :=
  match AuthService.get_email_from_token t now with
  | Except.error _ => (db, Except.error (PyErr.http 400 ("Invalid token or user")))
  | Except.ok email =>
    match RepoUsers.get_user_by_email email db with
    | none => (db, Except.error (PyErr.http 400 ("Invalid token or user")))
    | some _ =>
      (RepoUsers.update_password email new_password salt db,
        Except.ok ("Password has been reset successfully"))

end Routes

/-- The refresh token currently stored for the account with the given email:
`none` when no such account exists, `some tok` otherwise (where `tok = none`
embeds a cleared/NULL stored token). -/
def storedToken (email : String) (db : Db) : Option (Option Token) :=
  (RepoUsers.get_user_by_email email db).map (fun u => u.refresh_token)

/-- Gregorian leap-year test, as Python's date arithmetic uses. -/
def isLeap (y : Nat) : Bool :=
  (y % 4 == 0 && y % 100 != 0) || y % 400 == 0

/-- Number of days of month `m` in year `y`. -/
def daysInMonth (y m : Nat) : Nat :=
  if m == 2 then (if isLeap y then 29 else 28)
  else if m == 4 || m == 6 || m == 9 || m == 11 then 30
  else 31

/-- A calendar date: year, month (1-12), day (1-31). -/
structure Date where
  year : Nat
  month : Nat
  day : Nat
  deriving DecidableEq, Repr

/-- The following calendar day, embedding one day of Python timedelta
arithmetic. -/
def Date.tomorrow (d : Date) : Date :=
  if d.day < daysInMonth d.year d.month then ⟨d.year, d.month, d.day + 1⟩
  else if d.month < 12 then ⟨d.year, d.month + 1, 1⟩
  else ⟨d.year + 1, 1, 1⟩

/-- The date n days later, embedding Python date plus timedelta of n days. -/
def Date.addDays (d : Date) : Nat → Date
  | 0 => d
  | n + 1 => d.tomorrow.addDays n

/-- Zero-padded two-digit decimal rendering. -/
def pad2 (n : Nat) : String :=
  if n < 10 then ("0") ++ toString n else toString n

/-- Embeds PostgreSQL to_char of a date with the MM-DD template. -/
def Date.mmdd (d : Date) : String :=
  pad2 d.month ++ ("-") ++ pad2 d.day

/-- Lexicographic comparison of character lists by code point: true when the
first list is less than or equal to the second.  This is the order the SQL
text comparison operators use on ASCII strings such as MM-DD values. -/
def charListLe : List Char → List Char → Bool
  | [], _ => true
  | _ :: _, [] => false
  | a :: as, b :: bs =>
    if a.toNat < b.toNat then true
    else if b.toNat < a.toNat then false
    else charListLe as bs

/-- String less-or-equal by code points (SQL text comparison). -/
def strLe (a b : String) : Bool :=
  charListLe a.toList b.toList

/-- A contact row: primary-key id, the owning user (by email, standing in for
the foreign key), simple scalar fields, and the birthday date. -/
structure Contact where
  id : Nat
  owner : String
  first_name : String
  last_name : String
  email : String
  phone : String
  birthday : Date
  note : String
  deriving DecidableEq, Repr

/-- The contact store: the list of contact rows.  `id` is the primary key, so
well-formed stores never hold two rows with the same id. -/
structure ContactDb where
  contacts : List Contact
  deriving DecidableEq, Repr

/-- The ContactCreateSchema body: every scalar field, no id and no owner. -/
structure ContactCreate where
  first_name : String
  last_name : String
  email : String
  phone : String
  birthday : Date
  note : String
  deriving DecidableEq, Repr

/-- The ContactUpdateSchema body: fields left `none` are absent from the
request and keep their stored value (model_dump with exclude_unset). -/
structure ContactUpdate where
  first_name : Option String
  last_name : Option String
  email : Option String
  phone : Option String
  birthday : Option Date
  note : Option String
  deriving DecidableEq, Repr

/-- Overwrites the fields present in the update body, embedding the setattr
loop of `update_contact`.  The id and the owner are not schema fields, so
they are untouched. -/
def applyUpdate (b : ContactUpdate) (c : Contact) : Contact :=
  { c with
    first_name := b.first_name.getD c.first_name,
    last_name := b.last_name.getD c.last_name,
    email := b.email.getD c.email,
    phone := b.phone.getD c.phone,
    birthday := b.birthday.getD c.birthday,
    note := b.note.getD c.note }

/-- Python truthiness of an optional string: None and the empty string are
falsy. -/
def truthy : Option String → Bool
  | none => false
  | some s => !s.isEmpty

/-- Case-insensitive substring test, embedding SQL ilike with a pattern that
wraps the needle in percent wildcards. -/
def icontains (hay pat : String) : Bool :=
  if pat.isEmpty then true
  else ((hay.toLower).splitOn (pat.toLower)).length != 1

/-- Embeds one conjunct of the extra filter in `get_contacts`: the Python
expression is a parameter-is-None test or-ed with the ilike clause, so a None
parameter contributes a true condition and any string parameter (even the
empty one) contributes the ilike substring test. -/
def optFilter (field : String) : Option String → Bool
  | none => true
  | some s => icontains field s

namespace RepoContacts

/-- Embeds `get_contacts` of src/src/repository/contacts.py lines 7-20: rows
of the given user, with the extra name/email substring conjunction added only
when at least one of the three parameters is truthy; SQL applies every WHERE
clause before OFFSET and LIMIT. -/
def get_contacts (limit offset : Nat) (first_name last_name email : Option String)
    (db : ContactDb) (user : String) : List Contact :=
  let rows :=
    if truthy first_name || truthy last_name || truthy email then
      db.contacts.filter (fun c => c.owner == user
        && optFilter c.first_name first_name
        && optFilter c.last_name last_name
        && optFilter c.email email)
    else
      db.contacts.filter (fun c => c.owner == user)
  (rows.drop offset).take limit

/-- Embeds `get_contact` of src/src/repository/contacts.py lines 23-26: the
row with this id and this owner, if any. -/
def get_contact (contact_id : Nat) (db : ContactDb) (user : String) : Option Contact :=
  db.contacts.find? (fun c => c.id == contact_id && c.owner == user)

/-- Embeds `create_contact` of src/src/repository/contacts.py lines 29-34:
inserts a row built from the body with the given user as owner; `newId` is
the primary key the database assigns. -/
def create_contact (body : ContactCreate) (newId : Nat) (db : ContactDb) (user : String) :
    ContactDb × Contact :=
  let c : Contact := ⟨newId, user, body.first_name, body.last_name, body.email,
    body.phone, body.birthday, body.note⟩
  (⟨db.contacts ++ [c]⟩, c)

/-- Embeds `update_contact` of src/src/repository/contacts.py lines 37-47:
when a row with this id and owner exists, overwrite its fields from the body
and return it; otherwise leave the store alone and return nothing.  Since id
is the primary key, at most one row matches the map's condition. -/
def update_contact (contact_id : Nat) (body : ContactUpdate) (db : ContactDb) (user : String) :
    ContactDb × Option Contact :=
  match db.contacts.find? (fun c => c.id == contact_id && c.owner == user) with
  | none => (db, none)
  | some c =>
    (⟨db.contacts.map (fun x =>
        if x.id == contact_id && x.owner == user then applyUpdate body x else x)⟩,
      some (applyUpdate body c))

/-- Embeds `delete_contact` of src/src/repository/contacts.py lines 50-57:
when a row with this id and owner exists, remove it and return it; otherwise
leave the store alone and return nothing. -/
def delete_contact (contact_id : Nat) (db : ContactDb) (user : String) :
    ContactDb × Option Contact :=
  match db.contacts.find? (fun c => c.id == contact_id && c.owner == user) with
  | none => (db, none)
  | some c => (⟨db.contacts.eraseP (fun x => x.id == contact_id && x.owner == user)⟩, some c)

/-- Embeds `get_upcoming_birthdays` of src/src/repository/contacts.py lines
60-77: rows of the given user whose birthday rendered as MM-DD lies, in SQL
text order, between today's MM-DD and the MM-DD of today plus 7 days. -/
def get_upcoming_birthdays (today : Date) (db : ContactDb) (user : String) : List Contact :=
  let end_date := today.addDays 7
  db.contacts.filter (fun c =>
    strLe (Date.mmdd today) (Date.mmdd c.birthday)
    && strLe (Date.mmdd c.birthday) (Date.mmdd end_date)
    && c.owner == user)

end RepoContacts

/-- Follows the claim's words, for comparison with `get_upcoming_birthdays`:
the birthday's month and day fall on one of the calendar days from today
through today plus 7 days. -/
def inBirthdayWindow (today bday : Date) : Bool :=
  (List.range 8).any (fun k =>
    (today.addDays k).month == bday.month && (today.addDays k).day == bday.day)

/-- A user found by email lookup carries that email. -/
theorem email_of_get_user_by_email {e : String} {db : Db} {w : User}
    (hw : RepoUsers.get_user_by_email e db = some w) : w.email = e := by
  unfold RepoUsers.get_user_by_email at hw
  have hbeq : (w.email == e) = true :=
    @List.find?_some User (fun u => u.email == e) w db.users hw
  exact eq_of_beq hbeq

/-- Email lookup commutes with a per-email row rewrite that preserves the
email field. -/
theorem find?_map_if_email (l : List User) (e : String) (f : User → User)
    (hf : ∀ v, (f v).email = v.email) :
    (l.map (fun v => if v.email == e then f v else v)).find? (fun v => v.email == e)
      = (l.find? (fun v => v.email == e)).map f := by
  rw [List.find?_map]
  have hp : ((fun v => v.email == e) ∘ (fun v => if v.email == e then f v else v))
      = (fun v => v.email == e) := by
    funext v
    by_cases h : v.email = e
    · simp [h, hf]
    · simp [h]
  rw [hp]
  cases hw : l.find? (fun v => v.email == e) with
  | none => rfl
  | some w =>
    have hbeq : (w.email == e) = true :=
      @List.find?_some User (fun v => v.email == e) w l hw
    have heq : w.email = e := eq_of_beq hbeq
    simp [heq]

/-- After `update_token`, looking the account up by its email yields the same
row with the stored refresh token overwritten. -/
theorem get_user_by_email_update_token (db : Db) (u w : User) (e : String) (tok : Option Token)
    (hue : u.email = e)
    (hw : RepoUsers.get_user_by_email e db = some w) :
    RepoUsers.get_user_by_email e (RepoUsers.update_token u tok db)
      = some { w with refresh_token := tok } := by
  unfold RepoUsers.get_user_by_email RepoUsers.update_token
  rw [hue, find?_map_if_email db.users e (fun v => { v with refresh_token := tok }) (fun v => rfl)]
  unfold RepoUsers.get_user_by_email at hw
  rw [hw]
  rfl

/-- A successful decode returns the token's subject claim, and means the
purpose matched and the token had not expired. -/
theorem decode_token_ok_all {t : Token} {p : Purpose} {n : Nat} {s : String}
    (h : AuthService.decode_token t p n = Except.ok s) :
    s = t.sub ∧ t.purpose = p ∧ ¬ t.exp < n := by
  unfold AuthService.decode_token at h
  by_cases h1 : t.purpose ≠ p
  · rw [if_pos h1] at h
    exact absurd h (by simp)
  · rw [if_neg h1] at h
    by_cases h2 : t.exp < n
    · rw [if_pos h2] at h
      exact absurd h (by simp)
    · rw [if_neg h2] at h
      have hs : t.sub = s := by simpa using h
      exact ⟨hs.symm, not_not.mp h1, h2⟩

/-- An account whose stored refresh token is cleared rejects every presented
token for its subject: the refresh handler can only answer with an error. -/
theorem refresh_rejects_when_cleared (db : Db) (e : String) (u : User) (tok : Token) (t' : Nat)
    (hu : RepoUsers.get_user_by_email e db = some u)
    (hrt : u.refresh_token = none)
    (hsub : tok.sub = e) :
    ∀ pair, (Routes.refresh_token tok t' db).2 ≠ Except.ok pair := by
  intro pair
  unfold Routes.refresh_token
  cases hdec : AuthService.decode_refresh_token tok t' with
  | error err => simp
  | ok e2 =>
    have hdec2 : AuthService.decode_token tok Purpose.refresh t' = Except.ok e2 := hdec
    have he2 : e2 = e := by rw [(decode_token_ok_all hdec2).1, hsub]
    rw [he2]
    simp [hu, hrt]

/-- C2: when the presented refresh token decodes but differs from the stored
one, the handler answers 401 and, as part of that failure, overwrites the
account's stored refresh token with the empty value. -/
theorem C2_mismatch_clears_stored_token (db : Db) (t : Token) (now : Nat) (e : String) (u : User)
    (hdec : AuthService.decode_refresh_token t now = Except.ok e)
    (hu : RepoUsers.get_user_by_email e db = some u)
    (hne : u.refresh_token ≠ some t) :
    Routes.refresh_token t now db
      = (RepoUsers.update_token u none db, Except.error (PyErr.http 401 ("Invalid refresh token")))
    ∧ storedToken e (Routes.refresh_token t now db).1 = some none := by
  have h1 : Routes.refresh_token t now db
      = (RepoUsers.update_token u none db,
          Except.error (PyErr.http 401 ("Invalid refresh token"))) := by
    unfold Routes.refresh_token
    rw [hdec]
    simp [hu, hne]
  refine ⟨h1, ?_⟩
  rw [h1]
  unfold storedToken
  rw [get_user_by_email_update_token db u u e none (email_of_get_user_by_email hu) hu]
  rfl

/-- Witness for C2 at a concrete store: a decodable token that is not the
stored one is answered with 401 and the stored token is cleared. -/
theorem C2_mismatch_clears_stored_token_witness :
    Routes.refresh_token ⟨("a@x.com"), Purpose.refresh, 1, 900000⟩ 5
        ⟨[⟨("a@x.com"), ("s:pw"), ("alice"), true,
          some ⟨("a@x.com"), Purpose.refresh, 2, 900000⟩⟩]⟩
      = (RepoUsers.update_token
            ⟨("a@x.com"), ("s:pw"), ("alice"), true,
              some ⟨("a@x.com"), Purpose.refresh, 2, 900000⟩⟩ none
            ⟨[⟨("a@x.com"), ("s:pw"), ("alice"), true,
              some ⟨("a@x.com"), Purpose.refresh, 2, 900000⟩⟩]⟩,
          Except.error (PyErr.http 401 ("Invalid refresh token")))
    ∧ storedToken ("a@x.com")
        (Routes.refresh_token ⟨("a@x.com"), Purpose.refresh, 1, 900000⟩ 5
          ⟨[⟨("a@x.com"), ("s:pw"), ("alice"), true,
            some ⟨("a@x.com"), Purpose.refresh, 2, 900000⟩⟩]⟩).1 = some none :=
  C2_mismatch_clears_stored_token
    ⟨[⟨("a@x.com"), ("s:pw"), ("alice"), true,
      some ⟨("a@x.com"), Purpose.refresh, 2, 900000⟩⟩]⟩
    ⟨("a@x.com"), Purpose.refresh, 1, 900000⟩ 5 ("a@x.com")
    ⟨("a@x.com"), ("s:pw"), ("alice"), true,
      some ⟨("a@x.com"), Purpose.refresh, 2, 900000⟩⟩
    rfl rfl (by decide)

/-- C4: logging in on an unconfirmed account answers 401 "Email not
confirmed" whatever the submitted password, with the store untouched (so no
token pair is issued and the stored refresh token is unchanged). -/
theorem C4_login_unconfirmed_always_401 (db : Db) (email pw : String) (now : Nat) (u : User)
    (hu : RepoUsers.get_user_by_email email db = some u)
    (hc : u.confirmed = false) :
    Routes.login email pw now db = (db, Except.error (PyErr.http 401 ("Email not confirmed"))) := by
  unfold Routes.login
  rw [hu]
  simp [hc]

/-- Witness for C4 at a concrete store, presenting the correct password for
an unconfirmed account. -/
theorem C4_login_unconfirmed_always_401_witness :
    Routes.login ("a@x.com") ("pw") 5
        ⟨[⟨("a@x.com"), ("s:pw"), ("alice"), false, none⟩]⟩
      = (⟨[⟨("a@x.com"), ("s:pw"), ("alice"), false, none⟩]⟩,
          Except.error (PyErr.http 401 ("Email not confirmed")))
    ∧ AuthService.verify_password ("pw") ("s:pw") = true :=
  ⟨C4_login_unconfirmed_always_401 ⟨[⟨("a@x.com"), ("s:pw"), ("alice"), false, none⟩]⟩
      ("a@x.com") ("pw") 5 ⟨("a@x.com"), ("s:pw"), ("alice"), false, none⟩ rfl rfl,
    by decide⟩

/-- C7: a password-reset request answers 404 when no account matches, and
otherwise dispatches a mail carrying a fresh reset token; in both cases the
store — every account field — is left exactly as it was. -/
theorem C7_password_reset_request_frame (db : Db) (email : String) (now : Nat) :
    (RepoUsers.get_user_by_email email db = none →
      Routes.password_reset_request email now db
        = (db, Except.error (PyErr.http 404 ("User not found"))))
    ∧ (∀ u, RepoUsers.get_user_by_email email db = some u →
        Routes.password_reset_request email now db
          = (db, Except.ok (("Password reset email sent"),
              AuthService.create_email_token email now))) := by
  constructor
  · intro h
    unfold Routes.password_reset_request
    rw [h]
  · intro u h
    unfold Routes.password_reset_request
    rw [h]

/-- Witness for C7 at a concrete store: both the absent-account branch and
the present-account branch, the latter leaving the store unchanged. -/
theorem C7_password_reset_request_frame_witness :
    Routes.password_reset_request ("ghost@x.com") 3
        ⟨[⟨("a@x.com"), ("s:pw"), ("alice"), true, none⟩]⟩
      = (⟨[⟨("a@x.com"), ("s:pw"), ("alice"), true, none⟩]⟩,
          Except.error (PyErr.http 404 ("User not found")))
    ∧ Routes.password_reset_request ("a@x.com") 3
        ⟨[⟨("a@x.com"), ("s:pw"), ("alice"), true, none⟩]⟩
      = (⟨[⟨("a@x.com"), ("s:pw"), ("alice"), true, none⟩]⟩,
          Except.ok (("Password reset email sent"),
            AuthService.create_email_token ("a@x.com") 3)) :=
  ⟨(C7_password_reset_request_frame ⟨[⟨("a@x.com"), ("s:pw"), ("alice"), true, none⟩]⟩
      ("ghost@x.com") 3).1 rfl,
    (C7_password_reset_request_frame ⟨[⟨("a@x.com"), ("s:pw"), ("alice"), true, none⟩]⟩
      ("a@x.com") 3).2 ⟨("a@x.com"), ("s:pw"), ("alice"), true, none⟩ rfl⟩

/-- C10: when the presented refresh token decodes but its subject matches no
account, the handler dereferences the absent row: it raises the unhandled
attribute error, neither a token pair nor a crafted 401 response. -/
theorem C10_refresh_missing_account_crashes (db : Db) (t : Token) (now : Nat) (e : String)
    (hdec : AuthService.decode_refresh_token t now = Except.ok e)
    (hu : RepoUsers.get_user_by_email e db = none) :
    Routes.refresh_token t now db = (db, Except.error PyErr.attrError) := by
  unfold Routes.refresh_token
  rw [hdec]
  simp [hu]

/-- Row-for-row confirmation monotonicity is reflexive. -/
theorem forall₂_confirmed_refl (l : List User) :
    List.Forall₂ (fun a b => a.confirmed = true → b.confirmed = true) l l :=
  List.forall₂_same.mpr (fun _ _ hx => hx)

/-- Setting the confirmation flag of the rows with a given email never lowers
any row's confirmation flag. -/
theorem forall₂_confirmed_set (l : List User) (e : String) :
    List.Forall₂ (fun a b => a.confirmed = true → b.confirmed = true) l
      (l.map (fun v => if v.email == e then { v with confirmed := true } else v)) :=
  List.forall₂_map_right_iff.mpr (List.forall₂_same.mpr (fun x _ hx => by
    by_cases hxe : x.email = e
    · simp [hxe]
    · simp [hxe, hx]))

/-- C6: confirming an already-confirmed account returns the distinct
informational message and leaves the store unchanged; moreover the
confirmation flow is one-way: `confirmed_email` never lowers any account's
confirmation flag (row for row, a confirmed row stays confirmed), and
`request_email` never changes the store at all. -/
theorem C6_confirm_email_idempotent_one_way (db : Db) (t : Token) (now : Nat) (e : String)
    (u : User)
    (hdec : AuthService.get_email_from_token t now = Except.ok e)
    (hu : RepoUsers.get_user_by_email e db = some u)
    (hc : u.confirmed = true) :
    Routes.confirmed_email t now db = (db, Except.ok ("Your email is already confirmed"))
    ∧ (∀ (db' : Db) (s : Token) (m : Nat),
        List.Forall₂ (fun a b => a.confirmed = true → b.confirmed = true)
          db'.users ((Routes.confirmed_email s m db').1).users)
    ∧ (∀ (e' : String) (db' : Db), (Routes.request_email e' db').1 = db') := by
  refine ⟨?_, ?_, ?_⟩
  · unfold Routes.confirmed_email
    rw [hdec]
    simp [hu, hc]
  · intro db' s m
    unfold Routes.confirmed_email
    cases hds : AuthService.get_email_from_token s m with
    | error err => exact forall₂_confirmed_refl db'.users
    | ok e2 =>
      dsimp only
      cases hu2 : RepoUsers.get_user_by_email e2 db' with
      | none => exact forall₂_confirmed_refl db'.users
      | some w =>
        by_cases hw : w.confirmed = true
        · simp only [hw, if_true]
          exact forall₂_confirmed_refl db'.users
        · simp only [hw, if_false]
          exact forall₂_confirmed_set db'.users e2
  · intro e' db'
    unfold Routes.request_email
    cases hu3 : RepoUsers.get_user_by_email e' db' with
    | none => rfl
    | some w =>
      by_cases hw : w.confirmed = true
      · simp [hw]
      · simp [hw]

/-- Witness for C6 at a concrete store with an already-confirmed account. -/
theorem C6_confirm_email_idempotent_one_way_witness :
    Routes.confirmed_email ⟨("a@x.com"), Purpose.email, 1, 900000⟩ 5
        ⟨[⟨("a@x.com"), ("s:pw"), ("alice"), true, none⟩]⟩
      = (⟨[⟨("a@x.com"), ("s:pw"), ("alice"), true, none⟩]⟩,
          Except.ok ("Your email is already confirmed")) :=
  (C6_confirm_email_idempotent_one_way ⟨[⟨("a@x.com"), ("s:pw"), ("alice"), true, none⟩]⟩
    ⟨("a@x.com"), Purpose.email, 1, 900000⟩ 5 ("a@x.com")
    ⟨("a@x.com"), ("s:pw"), ("alice"), true, none⟩ rfl rfl rfl).1

/-- C1: refresh rotation.  From a store whose account holds refresh token R,
a successful refresh at time t1 returns a new pair and stores the new refresh
token (distinct from R because issuance time moved on); presenting the
previous value R again at time t2 yields 401 and clears the stored token;
from the cleared store every further refresh attempt for this subject —
the old token, the new one, or any other — is answered with an error; and a
new login stores a fresh token again. -/
theorem C1_refresh_rotation (db : Db) (e : String) (u : User) (R : Token) (t1 t2 t4 : Nat)
    (pw : String)
    (hu : RepoUsers.get_user_by_email e db = some u)
    (hstored : u.refresh_token = some R)
    (hsub : R.sub = e) (hpur : R.purpose = Purpose.refresh)
    (hexp1 : ¬ R.exp < t1) (hexp2 : ¬ R.exp < t2)
    (hne : R ≠ AuthService.create_refresh_token e t1) :
    (Routes.refresh_token R t1 db).2
      = Except.ok ⟨AuthService.create_access_token e t1,
          AuthService.create_refresh_token e t1, ("bearer")⟩
    ∧ storedToken e (Routes.refresh_token R t1 db).1
      = some (some (AuthService.create_refresh_token e t1))
    ∧ (Routes.refresh_token R t2 (Routes.refresh_token R t1 db).1).2
      = Except.error (PyErr.http 401 ("Invalid refresh token"))
    ∧ storedToken e (Routes.refresh_token R t2 (Routes.refresh_token R t1 db).1).1 = some none
    ∧ (∀ (tok : Token) (t3 : Nat), tok.sub = e → ∀ pair,
        (Routes.refresh_token tok t3
          (Routes.refresh_token R t2 (Routes.refresh_token R t1 db).1).1).2 ≠ Except.ok pair)
    ∧ (u.confirmed = true → AuthService.verify_password pw u.password = true →
        storedToken e (Routes.login e pw t4
            (Routes.refresh_token R t2 (Routes.refresh_token R t1 db).1).1).1
          = some (some (AuthService.create_refresh_token e t4))) := by
  have hue : u.email = e := email_of_get_user_by_email hu
  have hdec1 : AuthService.decode_refresh_token R t1 = Except.ok e := by
    unfold AuthService.decode_refresh_token AuthService.decode_token
    rw [hpur]
    simp [hexp1, hsub]
  have hdec2 : AuthService.decode_refresh_token R t2 = Except.ok e := by
    unfold AuthService.decode_refresh_token AuthService.decode_token
    rw [hpur]
    simp [hexp2, hsub]
  have h1 : Routes.refresh_token R t1 db
      = (RepoUsers.update_token u (some (AuthService.create_refresh_token e t1)) db,
          Except.ok ⟨AuthService.create_access_token e t1,
            AuthService.create_refresh_token e t1, ("bearer")⟩) := by
    unfold Routes.refresh_token
    rw [hdec1]
    simp [hu, hstored]
  have hu1 : RepoUsers.get_user_by_email e
        (RepoUsers.update_token u (some (AuthService.create_refresh_token e t1)) db)
      = some { u with refresh_token := some (AuthService.create_refresh_token e t1) } :=
    get_user_by_email_update_token db u u e _ hue hu
  have hne1 : ({ u with refresh_token := some (AuthService.create_refresh_token e t1) }
      : User).refresh_token ≠ some R := by
    intro hcontr
    exact hne (Option.some.inj hcontr).symm
  have h2 : Routes.refresh_token R t2
        (RepoUsers.update_token u (some (AuthService.create_refresh_token e t1)) db)
      = (RepoUsers.update_token
            { u with refresh_token := some (AuthService.create_refresh_token e t1) } none
            (RepoUsers.update_token u (some (AuthService.create_refresh_token e t1)) db),
          Except.error (PyErr.http 401 ("Invalid refresh token"))) := by
    unfold Routes.refresh_token
    rw [hdec2]
    simp [hu1, hne1]
  have hu2 : RepoUsers.get_user_by_email e
        (RepoUsers.update_token
          { u with refresh_token := some (AuthService.create_refresh_token e t1) } none
          (RepoUsers.update_token u (some (AuthService.create_refresh_token e t1)) db))
      = some { u with refresh_token := none } :=
    get_user_by_email_update_token _ _
      { u with refresh_token := some (AuthService.create_refresh_token e t1) } e none hue hu1
  refine ⟨?_, ?_, ?_, ?_, ?_, ?_⟩
  · rw [h1]
  · rw [h1]
    unfold storedToken
    rw [hu1]
    rfl
  · rw [h1, h2]
  · rw [h1, h2]
    unfold storedToken
    rw [hu2]
    rfl
  · intro tok t3 hs pair
    rw [h1, h2]
    exact refresh_rejects_when_cleared _ e { u with refresh_token := none } tok t3 hu2 rfl hs pair
  · intro hconf hpw
    rw [h1, h2]
    have hlog : Routes.login e pw t4
          (RepoUsers.update_token
            { u with refresh_token := some (AuthService.create_refresh_token e t1) } none
            (RepoUsers.update_token u (some (AuthService.create_refresh_token e t1)) db))
        = (RepoUsers.update_token { u with refresh_token := none }
              (some (AuthService.create_refresh_token e t4))
              (RepoUsers.update_token
                { u with refresh_token := some (AuthService.create_refresh_token e t1) } none
                (RepoUsers.update_token u (some (AuthService.create_refresh_token e t1)) db)),
            Except.ok ⟨AuthService.create_access_token e t4,
              AuthService.create_refresh_token e t4, ("bearer")⟩) := by
      unfold Routes.login
      rw [hu2]
      simp [hconf, hpw, hue]
    rw [hlog]
    unfold storedToken
    rw [get_user_by_email_update_token _ { u with refresh_token := none }
      { u with refresh_token := none } e (some (AuthService.create_refresh_token e t4)) hue hu2]
    rfl

/-- Witness for C1: in a concrete store, after a successful refresh at time
5, replaying the old refresh token at time 7 is answered 401. -/
theorem C1_refresh_rotation_witness :
    (Routes.refresh_token ⟨("a@x.com"), Purpose.refresh, 0, 900000⟩ 7
        (Routes.refresh_token ⟨("a@x.com"), Purpose.refresh, 0, 900000⟩ 5
          ⟨[⟨("a@x.com"), ("s:pw"), ("alice"), true,
            some ⟨("a@x.com"), Purpose.refresh, 0, 900000⟩⟩]⟩).1).2
      = Except.error (PyErr.http 401 ("Invalid refresh token")) :=
  (C1_refresh_rotation
    ⟨[⟨("a@x.com"), ("s:pw"), ("alice"), true,
      some ⟨("a@x.com"), Purpose.refresh, 0, 900000⟩⟩]⟩
    ("a@x.com")
    ⟨("a@x.com"), ("s:pw"), ("alice"), true,
      some ⟨("a@x.com"), Purpose.refresh, 0, 900000⟩⟩
    ⟨("a@x.com"), Purpose.refresh, 0, 900000⟩ 5 7 9 ("pw")
    rfl rfl rfl rfl (by decide) (by decide) (by decide)).2.2.1

/-- Witness for C10 at a concrete store with no matching account. -/
theorem C10_refresh_missing_account_crashes_witness :
    Routes.refresh_token ⟨("ghost@x.com"), Purpose.refresh, 1, 900000⟩ 5
        ⟨[⟨("a@x.com"), ("s:pw"), ("alice"), true, none⟩]⟩
      = (⟨[⟨("a@x.com"), ("s:pw"), ("alice"), true, none⟩]⟩, Except.error PyErr.attrError) :=
  C10_refresh_missing_account_crashes ⟨[⟨("a@x.com"), ("s:pw"), ("alice"), true, none⟩]⟩
    ⟨("ghost@x.com"), Purpose.refresh, 1, 900000⟩ 5 ("ghost@x.com") rfl rfl

/-- C5: a confirmation request for an email matching no stored account does
not complete with a response: the handler reads the confirmation flag off the
absent row and raises the unhandled attribute error. -/
theorem C5_request_email_missing_user_crash :
    Routes.request_email ("ghost@x.com") ⟨[]⟩ = (⟨[]⟩, Except.error PyErr.attrError) := rfl

/-- C3 counterexample: a working email-verification token — one the
email-confirmation endpoint accepts — presented to the password-reset-confirm
endpoint is not rejected: it resets the password.  The purpose tag does not
prevent this cross-use, because both flows decode with the same codec. -/
theorem C3_counterexample :
    (Routes.confirmed_email (AuthService.create_email_token ("a@x.com") 0) 5
        ⟨[⟨("a@x.com"), ("s:pw"), ("alice"), false, none⟩]⟩).2
      = Except.ok ("Email confirmed")
    ∧ Routes.password_reset_confirm (AuthService.create_email_token ("a@x.com") 0)
        ("newpw") 5 ("t")
        ⟨[⟨("a@x.com"), ("s:pw"), ("alice"), false, none⟩]⟩
      = (⟨[⟨("a@x.com"), ("t:newpw"), ("alice"), false, none⟩]⟩,
          Except.ok ("Password has been reset successfully")) := by
  exact ⟨rfl, rfl⟩

/-- C3 amended: password-reset confirmation decodes with the same mail-token
codec as email verification (there is no password-reset-specific purpose);
every token it accepts carries the shared email purpose, and when the subject
matches a stored account the password is overwritten — so an
email-verification token is accepted rather than rejected. -/
theorem C3_amended_shared_codec (db : Db) (t : Token) (now : Nat) (np salt e : String) (u : User)
    (hdec : AuthService.get_email_from_token t now = Except.ok e)
    (hu : RepoUsers.get_user_by_email e db = some u) :
    Routes.password_reset_confirm t np now salt db
      = (RepoUsers.update_password e np salt db,
          Except.ok ("Password has been reset successfully"))
    ∧ t.purpose = Purpose.email := by
  have hdec2 : AuthService.decode_token t Purpose.email now = Except.ok e := hdec
  constructor
  · unfold Routes.password_reset_confirm
    rw [hdec]
    simp [hu]
  · exact (decode_token_ok_all hdec2).2.1

/-- Witness for C3's amended statement at a concrete store and token. -/
theorem C3_amended_shared_codec_witness :
    Routes.password_reset_confirm (AuthService.create_email_token ("a@x.com") 0)
        ("npw") 5 ("t") ⟨[⟨("a@x.com"), ("s:pw"), ("alice"), true, none⟩]⟩
      = (RepoUsers.update_password ("a@x.com") ("npw") ("t")
            ⟨[⟨("a@x.com"), ("s:pw"), ("alice"), true, none⟩]⟩,
          Except.ok ("Password has been reset successfully"))
    ∧ (AuthService.create_email_token ("a@x.com") 0).purpose = Purpose.email :=
  C3_amended_shared_codec ⟨[⟨("a@x.com"), ("s:pw"), ("alice"), true, none⟩]⟩
    (AuthService.create_email_token ("a@x.com") 0) 5 ("npw") ("t") ("a@x.com")
    ⟨("a@x.com"), ("s:pw"), ("alice"), true, none⟩ rfl rfl

/-- Code-point comparison of character lists is transitive. -/
theorem charListLe_trans : ∀ (a b c : List Char),
    charListLe a b = true → charListLe b c = true → charListLe a c = true
  | [], _, _, _, _ => rfl
  | _ :: _, [], _, hab, _ => by simp [charListLe] at hab
  | _ :: _, _ :: _, [], _, hbc => by simp [charListLe] at hbc
  | x :: xs, y :: ys, z :: zs, hab, hbc => by
    unfold charListLe at hab hbc ⊢
    by_cases hxy : x.toNat < y.toNat
    · rw [if_pos hxy] at hab
      by_cases hyz : y.toNat < z.toNat
      · rw [if_pos (Nat.lt_trans hxy hyz)]
      · rw [if_neg hyz] at hbc
        by_cases hzy : z.toNat < y.toNat
        · rw [if_pos hzy] at hbc
          exact absurd hbc (by simp)
        · have hyz2 : y.toNat = z.toNat :=
            Nat.le_antisymm (Nat.le_of_not_lt hzy) (Nat.le_of_not_lt hyz)
          rw [if_pos (hyz2 ▸ hxy)]
    · rw [if_neg hxy] at hab
      by_cases hyx : y.toNat < x.toNat
      · rw [if_pos hyx] at hab
        exact absurd hab (by simp)
      · rw [if_neg hyx] at hab
        have hxy2 : x.toNat = y.toNat :=
          Nat.le_antisymm (Nat.le_of_not_lt hyx) (Nat.le_of_not_lt hxy)
        by_cases hyz : y.toNat < z.toNat
        · rw [if_pos (hxy2 ▸ hyz)]
        · rw [if_neg hyz] at hbc
          by_cases hzy : z.toNat < y.toNat
          · rw [if_pos hzy] at hbc
            exact absurd hbc (by simp)
          · rw [if_neg hzy] at hbc
            rw [if_neg (hxy2 ▸ hyz : ¬ x.toNat < z.toNat),
              if_neg (hxy2 ▸ hzy : ¬ z.toNat < x.toNat)]
            exact charListLe_trans xs ys zs hab hbc

/-- C8 counterexample: on December 30, 2023, a contact of the caller whose
birthday is January 2 falls within the next 7 days, yet the query returns
nothing: the MM-DD interval is empty when the window crosses the year
boundary. -/
theorem C8_counterexample :
    inBirthdayWindow ⟨2023, 12, 30⟩ ⟨1990, 1, 2⟩ = true
    ∧ RepoContacts.get_upcoming_birthdays ⟨2023, 12, 30⟩
        ⟨[⟨1, ("alice"), ("Ann"), ("Ng"), ("ann@x.com"), ("1"), ⟨1990, 1, 2⟩, ("")⟩]⟩
        ("alice") = [] := by
  exact ⟨rfl, rfl⟩

/-- C8 amended: the query returns exactly the caller's contacts whose
birthday rendered as MM-DD lies, in SQL text order, between today's MM-DD
and the MM-DD of today plus 7 days; consequently, whenever the 7-day window
crosses a year boundary (the end's MM-DD sorts before today's), it returns
no contacts at all. -/
theorem C8_amended_mmdd_interval (today : Date) (db : ContactDb) (user : String) :
    (∀ c, c ∈ RepoContacts.get_upcoming_birthdays today db user ↔
      c ∈ db.contacts
        ∧ (strLe (Date.mmdd today) (Date.mmdd c.birthday) = true
            ∧ strLe (Date.mmdd c.birthday) (Date.mmdd (today.addDays 7)) = true)
        ∧ c.owner = user)
    ∧ (strLe (Date.mmdd today) (Date.mmdd (today.addDays 7)) = false →
        RepoContacts.get_upcoming_birthdays today db user = []) := by
  constructor
  · intro c
    unfold RepoContacts.get_upcoming_birthdays
    simp [List.mem_filter, Bool.and_eq_true, and_assoc]
  · intro hwrap
    unfold RepoContacts.get_upcoming_birthdays
    refine List.filter_eq_nil_iff.mpr ?_
    intro c hc hcond
    rw [Bool.and_eq_true, Bool.and_eq_true] at hcond
    obtain ⟨⟨h1, h2⟩, _⟩ := hcond
    have h4 : strLe (Date.mmdd today) (Date.mmdd (today.addDays 7)) = true :=
      charListLe_trans _ _ _ h1 h2
    rw [h4] at hwrap
    exact absurd hwrap (by simp)

/-- Witness for C8's amended statement: a concrete year-crossing window in
which the query provably returns nothing, through the amended theorem. -/
theorem C8_amended_mmdd_interval_witness :
    RepoContacts.get_upcoming_birthdays ⟨2023, 12, 30⟩
        ⟨[⟨1, ("alice"), ("Ann"), ("Ng"), ("ann@x.com"), ("1"), ⟨1990, 1, 2⟩, ("")⟩,
          ⟨2, ("alice"), ("Bo"), ("Yu"), ("bo@x.com"), ("2"), ⟨1988, 12, 31⟩, ("")⟩]⟩
        ("alice") = [] :=
  (C8_amended_mmdd_interval ⟨2023, 12, 30⟩
    ⟨[⟨1, ("alice"), ("Ann"), ("Ng"), ("ann@x.com"), ("1"), ⟨1990, 1, 2⟩, ("")⟩,
      ⟨2, ("alice"), ("Bo"), ("Yu"), ("bo@x.com"), ("2"), ⟨1988, 12, 31⟩, ("")⟩]⟩
    ("alice")).2 rfl

/-- Update bodies never touch the owner. -/
theorem applyUpdate_owner (b : ContactUpdate) (c : Contact) :
    (applyUpdate b c).owner = c.owner := rfl

/-- C9: every contact operation is scoped to the user passed to it: listing
(with or without filters), get by id, and the birthday query only return the
user's rows; creation attaches the new row to this user and leaves every
other row alone; update touches only rows of this user; delete removes only
a row of this user; and for an id held by a different owner, get, update and
delete return the no-result value and leave the store untouched. -/
theorem C9_ownership_scoping (user : String) :
    (∀ (limit offset : Nat) (fn ln em : Option String) (db : ContactDb) (c : Contact),
        c ∈ RepoContacts.get_contacts limit offset fn ln em db user → c.owner = user)
    ∧ (∀ (cid : Nat) (db : ContactDb) (c : Contact),
        RepoContacts.get_contact cid db user = some c → c.owner = user)
    ∧ (∀ (cid : Nat) (b : ContactUpdate) (db : ContactDb),
        (∀ c ∈ db.contacts, c.id = cid → c.owner ≠ user) →
          RepoContacts.get_contact cid db user = none
          ∧ RepoContacts.update_contact cid b db user = (db, none)
          ∧ RepoContacts.delete_contact cid db user = (db, none))
    ∧ (∀ (body : ContactCreate) (newId : Nat) (db : ContactDb),
        (RepoContacts.create_contact body newId db user).2.owner = user
        ∧ (RepoContacts.create_contact body newId db user).1.contacts
            = db.contacts ++ [(RepoContacts.create_contact body newId db user).2])
    ∧ (∀ (cid : Nat) (b : ContactUpdate) (db : ContactDb),
        List.Forall₂ (fun old new => old = new ∨ (old.owner = user ∧ new.owner = user))
          db.contacts ((RepoContacts.update_contact cid b db user).1).contacts)
    ∧ (∀ (cid : Nat) (db : ContactDb) (c : Contact),
        c ∈ db.contacts → c ∉ ((RepoContacts.delete_contact cid db user).1).contacts →
          c.owner = user)
    ∧ (∀ (today : Date) (db : ContactDb) (c : Contact),
        c ∈ RepoContacts.get_upcoming_birthdays today db user → c.owner = user) := by
  refine ⟨?_, ?_, ?_, ?_, ?_, ?_, ?_⟩
  · intro limit offset fn ln em db c hc
    simp only [RepoContacts.get_contacts] at hc
    have hc1 := List.mem_of_mem_drop (List.mem_of_mem_take hc)
    by_cases hg : (truthy fn || truthy ln || truthy em) = true
    · rw [if_pos hg] at hc1
      have hcond := (List.mem_filter.mp hc1).2
      rw [Bool.and_eq_true, Bool.and_eq_true, Bool.and_eq_true] at hcond
      exact eq_of_beq hcond.1.1.1
    · rw [if_neg hg] at hc1
      exact eq_of_beq (List.mem_filter.mp hc1).2
  · intro cid db c hc
    unfold RepoContacts.get_contact at hc
    have hcond := @List.find?_some Contact
      (fun x => x.id == cid && x.owner == user) c db.contacts hc
    rw [Bool.and_eq_true] at hcond
    exact eq_of_beq hcond.2
  · intro cid b db h
    have hfind : db.contacts.find? (fun x => x.id == cid && x.owner == user) = none := by
      refine List.find?_eq_none.mpr ?_
      intro x hx hcond
      rw [Bool.and_eq_true] at hcond
      exact h x hx (eq_of_beq hcond.1) (eq_of_beq hcond.2)
    refine ⟨hfind, ?_, ?_⟩
    · unfold RepoContacts.update_contact
      rw [hfind]
    · unfold RepoContacts.delete_contact
      rw [hfind]
  · intro body newId db
    exact ⟨rfl, rfl⟩
  · intro cid b db
    unfold RepoContacts.update_contact
    cases hf : db.contacts.find? (fun x => x.id == cid && x.owner == user) with
    | none => exact List.forall₂_same.mpr (fun x _ => Or.inl rfl)
    | some c0 =>
      refine List.forall₂_map_right_iff.mpr (List.forall₂_same.mpr (fun x _ => ?_))
      by_cases hx : (x.id == cid && x.owner == user) = true
      · rw [if_pos hx]
        right
        rw [Bool.and_eq_true] at hx
        have hown : x.owner = user := eq_of_beq hx.2
        exact ⟨hown, by rw [applyUpdate_owner]; exact hown⟩
      · rw [if_neg hx]
        exact Or.inl rfl
  · intro cid db c hc hnc
    unfold RepoContacts.delete_contact at hnc
    cases hf : db.contacts.find? (fun x => x.id == cid && x.owner == user) with
    | none =>
      rw [hf] at hnc
      exact absurd hc hnc
    | some c0 =>
      rw [hf] at hnc
      have hnc2 : c ∉ List.eraseP (fun x => x.id == cid && x.owner == user) db.contacts := hnc
      by_cases hpc : (c.id == cid && c.owner == user) = true
      · rw [Bool.and_eq_true] at hpc
        exact eq_of_beq hpc.2
      · exact absurd ((@List.mem_eraseP_of_neg Contact
          (fun x => x.id == cid && x.owner == user) c db.contacts hpc).mpr hc) hnc2
  · intro today db c hc
    simp only [RepoContacts.get_upcoming_birthdays] at hc
    have hcond := (List.mem_filter.mp hc).2
    rw [Bool.and_eq_true] at hcond
    exact eq_of_beq hcond.2

/-- Witness for C9 at a concrete store: on an id owned by someone else, get,
update and delete return the no-result value with the store untouched. -/
theorem C9_ownership_scoping_witness :
    RepoContacts.get_contact 1
        ⟨[⟨1, ("bob"), ("B"), ("B"), ("b@x.com"), ("1"), ⟨1990, 5, 5⟩, ("")⟩]⟩ ("alice") = none
    ∧ RepoContacts.update_contact 1 ⟨none, none, none, none, none, none⟩
        ⟨[⟨1, ("bob"), ("B"), ("B"), ("b@x.com"), ("1"), ⟨1990, 5, 5⟩, ("")⟩]⟩ ("alice")
      = (⟨[⟨1, ("bob"), ("B"), ("B"), ("b@x.com"), ("1"), ⟨1990, 5, 5⟩, ("")⟩]⟩, none)
    ∧ RepoContacts.delete_contact 1
        ⟨[⟨1, ("bob"), ("B"), ("B"), ("b@x.com"), ("1"), ⟨1990, 5, 5⟩, ("")⟩]⟩ ("alice")
      = (⟨[⟨1, ("bob"), ("B"), ("B"), ("b@x.com"), ("1"), ⟨1990, 5, 5⟩, ("")⟩]⟩, none) :=
  (C9_ownership_scoping ("alice")).2.2.1 1 ⟨none, none, none, none, none, none⟩
    ⟨[⟨1, ("bob"), ("B"), ("B"), ("b@x.com"), ("1"), ⟨1990, 5, 5⟩, ("")⟩]⟩ (by decide)

end PyWebHw13
